import Mathlib

/-!
Shallow embedding of `safe_keyrecorder.py` (class `SafeKeyRecorder`).

The program is a single-threaded Tk application.  Its session state is the
`recording` flag, the in-memory event list `self.events`, the display panel
(`self.log_display`, an append-only sequence of lines), and the UI widget
states (Start/Stop button enablement, status-label text and color).

Each handler becomes a pure Lean function.  External inputs that the toolkit
or the user supplies at call time are passed as parameters: the current UTC
timestamp string (`datetime.utcnow().isoformat()`), the key event fields
(`event.keysym`, `event.char`), the file-dialog result (`Option String`,
`none` for cancel or empty path), the yes/no answer of a confirmation dialog
(`Bool`), the success of a file write or read (`Bool`) together with the
exception text for the failure case, and the pre-existing content of the
chosen file (append-mode file semantics: the new content is the old content
followed by the bytes written).  Side effects other than state mutation
(dialogs shown, window destroyed, viewer opened) are returned as a list of
`Eff` values in the order the code performs them.
-/

/-- One entry of `self.events`: the tuple `(timestamp, keysym, char_repr)`. -/
structure EventRecord where
  timestamp : String
  keysym : String
  charRepr : String
deriving Repr, DecidableEq

/-- The mutable session state of a `SafeKeyRecorder` instance. -/
structure SessionState where
  recording : Bool
  events : List EventRecord
  /-- Lines of the `log_display` text widget, in order of appending. -/
  display : List String
  /-- Tk `state` option of the Start button: "normal" or "disabled". -/
  startBtnState : String
  /-- Tk `state` option of the Stop button: "normal" or "disabled". -/
  stopBtnState : String
  statusText : String
  statusFg : String
deriving Repr, DecidableEq

/-- The state set up by `__init__`: not recording, empty event list, empty
display, Start enabled (Tk default "normal"), Stop created with
`state="disabled"`, status label "Recording: No" in red. -/
def initialState : SessionState :=
  { recording := false
    events := []
    display := []
    startBtnState := "normal"
    stopBtnState := "disabled"
    statusText := "Recording: No"
    statusFg := "red" }

/-- Observable side effects other than session-state mutation, in the order
the handler performs them. -/
inductive Eff where
  | showInfo (title msg : String)
  | showError (title msg : String)
  | askSaveDialog
  | askOpenDialog
  | askYesNo (title msg : String)
  | destroyWindow
  | showViewer (title content : String)
deriving Repr, DecidableEq

/-- `_append_to_display`: inserts `text + "\n"` at the end of the display. -/
def appendToDisplay (s : SessionState) (text : String) : SessionState :=
  { s with display := s.display ++ [text] }

/-- The line format of `_append_message`. -/
def infoLine (now msg : String) : String :=
  "[INFO] " ++ now ++ "Z | " ++ msg

/-- `_append_message`: info messages go to the display only, never to
`self.events`. -/
def appendMessage (s : SessionState) (now msg : String) : SessionState :=
  appendToDisplay s (infoLine now msg)

/-- `start_recording`. -/
def start_recording (s : SessionState) (now : String) : SessionState :=
  if s.recording then s
  else
    appendMessage
      { s with recording := true
               startBtnState := "disabled"
               stopBtnState := "normal"
               statusText := "Recording: Yes"
               statusFg := "green" }
      now "Recording started. Click inside input area and type..."

/-- `stop_recording`. -/
def stop_recording (s : SessionState) (now : String) : SessionState :=
  if !s.recording then s
  else
    appendMessage
      { s with recording := false
               startBtnState := "normal"
               stopBtnState := "disabled"
               statusText := "Recording: No"
               statusFg := "red" }
      now "Recording stopped."

/-- Normalization of `event.char` in `on_key_press`: empty string (no
printable character) becomes the literal token, otherwise each newline is
replaced by the two-character escape. -/
def charReprOf (char : String) : String :=
  if char = "" then "<non-printable>" else char.replace "\n" "\\n"

/-- The record appended by `on_key_press`: timestamp is
`datetime.utcnow().isoformat() + "Z"`. -/
def mkEventRecord (now keysym char : String) : EventRecord :=
  { timestamp := now ++ "Z", keysym := keysym, charRepr := charReprOf char }

/-- The display line produced for one captured key event. -/
def keyDisplayLine (r : EventRecord) : String :=
  r.timestamp ++ " | " ++ r.keysym ++ " | " ++ r.charRepr

/-- `on_key_press`: ignores the event unless `recording` is set; otherwise
appends one record to `self.events` and one line to the display. -/
def on_key_press (s : SessionState) (now keysym char : String) : SessionState :=
  if !s.recording then s
  else
    let r := mkEventRecord now keysym char
    appendToDisplay { s with events := s.events ++ [r] } (keyDisplayLine r)

/-- One line of the saved file body: `f"{ts}\t{keysym}\t{ch}\n"`. -/
def recLine (e : EventRecord) : String :=
  e.timestamp ++ "\t" ++ e.keysym ++ "\t" ++ e.charRepr ++ "\n"

/-- The header line written by `save_log`. -/
def saveHeader (now : String) : String :=
  "# Key event log saved: " ++ now ++ "Z\n"

/-- The bytes `save_log` writes on success: header, then the `for` loop over
`self.events`, then one final `"\n"`. -/
def writeBlock (now : String) (events : List EventRecord) : String :=
  events.foldl (fun acc e => acc ++ recLine e) (saveHeader now) ++ "\n"

/-- `os.path.basename` for forward-slash paths. -/
def basename (p : String) : String :=
  (p.splitOn "/").getLastD p

/-- Result of `save_log`: the state after the call, the content of the chosen
file after the call (`none` when nothing was written), and the effects. -/
structure SaveResult where
  state : SessionState
  fileContent : Option String
  effs : List Eff
deriving Repr, DecidableEq

/-- `save_log`.  `choice` is the `asksaveasfilename` result (`none` for a
cancelled dialog or empty path, since the code tests `if not path`),
`writeOk` whether the `open`/`write` block succeeds, `err` the exception text
used on failure, `old` the pre-existing content of the chosen file. -/
def save_log (s : SessionState) (now : String) (choice : Option String)
    (writeOk : Bool) (err : String) (old : String) : SaveResult :=
  if s.events = [] then
    { state := s
      fileContent := none
      effs := [Eff.showInfo "Save Log" "No recorded events to save."] }
  else
    match choice with
    | none => { state := s, fileContent := none, effs := [Eff.askSaveDialog] }
    | some path =>
      if writeOk then
        { state := appendMessage s now
            ("Saved " ++ toString s.events.length ++ " events to " ++ basename path)
          fileContent := some (old ++ writeBlock now s.events)
          effs := [Eff.askSaveDialog,
            Eff.showInfo "Save Log"
              ("Saved " ++ toString s.events.length ++ " events to:\n" ++ path)] }
      else
        { state := s
          fileContent := none
          effs := [Eff.askSaveDialog,
            Eff.showError "Save Log" ("Failed to save file:\n" ++ err)] }

/-- `open_log_file`: view-only; never mutates the session state. -/
def open_log_file (s : SessionState) (choice : Option String) (readOk : Bool)
    (content err : String) : SessionState × List Eff :=
  match choice with
  | none => (s, [Eff.askOpenDialog])
  | some path =>
    if readOk then
      (s, [Eff.askOpenDialog, Eff.showViewer ("Viewing: " ++ basename path) content])
    else
      (s, [Eff.askOpenDialog, Eff.showError "Open Log" ("Failed to open file:\n" ++ err)])

/-- `clear_events`.  The guard `not self.events and
self.log_display.compare("end-1c", "==", "1.0")` is "event list empty and
display widget empty".  `confirm` is the `askyesno` answer. -/
def clear_events (s : SessionState) (now : String) (confirm : Bool) :
    SessionState × List Eff :=
  if s.events = [] ∧ s.display = [] then (s, [])
  else if confirm then
    (appendMessage { s with events := [], display := [] } now "Cleared recorded events.",
     [Eff.askYesNo "Clear" "Clear recorded events and display?"])
  else
    (s, [Eff.askYesNo "Clear" "Clear recorded events and display?"])

/-- `on_close` (the `WM_DELETE_WINDOW` handler).  `confirm` is the `askyesno`
answer, consulted only when the event list is non-empty. -/
def on_close (s : SessionState) (confirm : Bool) : SessionState × List Eff :=
  if s.events = [] then (s, [Eff.destroyWindow])
  else if confirm then
    (s, [Eff.askYesNo "Exit" "There are unsaved recorded events. Exit without saving?",
         Eff.destroyWindow])
  else
    (s, [Eff.askYesNo "Exit" "There are unsaved recorded events. Exit without saving?"])

/-- One user-or-toolkit-triggered operation of a session, with all its
external inputs. -/
inductive Op where
  | start (now : String)
  | stop (now : String)
  | key (now keysym char : String)
  | save (now : String) (choice : Option String) (writeOk : Bool) (err old : String)
  | clear (now : String) (confirm : Bool)
  | close (confirm : Bool)
  | openFile (choice : Option String) (readOk : Bool) (content err : String)
deriving Repr, DecidableEq

/-- The session state after one operation. -/
def applyOp (op : Op) (s : SessionState) : SessionState :=
  match op with
  | .start now => start_recording s now
  | .stop now => stop_recording s now
  | .key now ks ch => on_key_press s now ks ch
  | .save now choice ok err old => (save_log s now choice ok err old).state
  | .clear now confirm => (clear_events s now confirm).1
  | .close confirm => (on_close s confirm).1
  | .openFile choice ok content err => (open_log_file s choice ok content err).1

/-- An operation that is a Clear confirmed by the user. -/
def isConfirmedClear : Op → Bool
  | .clear _ true => true
  | _ => false

/-- Right-fold concatenation of a list of strings. -/
def concatLines (l : List String) : String :=
  l.foldr (fun a b => a ++ b) ""

/-- A state reached by pressing Start once: recording is active. -/
def recState : SessionState := start_recording initialState "t0"

/-- A recording state after typing "a" (printable) and "Return" (no
printable character). -/
def demoState : SessionState :=
  on_key_press (on_key_press recState "t1" "a" "a") "t2" "Return" ""

/-- Claim C1: a key event is a strict no-op on the whole state when
`recording` is false (hence never buffered: any sequence of key events
delivered while not recording leaves the state, in particular the event log
and display, exactly as it was); when `recording` is true it appends exactly
one record to the event log and exactly one line
`timestamp | key_symbol | char_repr` to the display. -/
theorem key_press_gated (s : SessionState) (now ks ch : String)
    (evs : List (String × String × String)) :
    (s.recording = false → on_key_press s now ks ch = s)
    ∧ (s.recording = true →
        (on_key_press s now ks ch).events = s.events ++ [mkEventRecord now ks ch]
        ∧ (on_key_press s now ks ch).display
            = s.display ++ [keyDisplayLine (mkEventRecord now ks ch)])
    ∧ (s.recording = false →
        evs.foldl (fun t e => on_key_press t e.1 e.2.1 e.2.2) s = s) := by
  refine ⟨?_, ?_, ?_⟩
  · intro h
    simp [on_key_press, h]
  · intro h
    constructor <;> simp [on_key_press, h, appendToDisplay]
  · intro h
    induction evs with
    | nil => rfl
    | cons e es ih =>
        have hstep : on_key_press s e.1 e.2.1 e.2.2 = s := by
          simp [on_key_press, h]
        simpa only [List.foldl_cons, hstep] using ih

/-- Claim C1 witness: a key event while idle leaves `initialState` unchanged,
and one while recording appends exactly one record and one line. -/
theorem key_press_gated_witness :
    on_key_press initialState "t1" "a" "a" = initialState
    ∧ (on_key_press recState "t1" "a" "a").events
        = recState.events ++ [mkEventRecord "t1" "a" "a"]
    ∧ [("t1", "a", "a"), ("t2", "b", "b")].foldl
        (fun t e => on_key_press t e.1 e.2.1 e.2.2) initialState = initialState :=
  ⟨(key_press_gated initialState "t1" "a" "a" []).1 rfl,
   ((key_press_gated recState "t1" "a" "a" []).2.1 (by decide)).1,
   (key_press_gated initialState "t1" "a" "a"
      [("t1", "a", "a"), ("t2", "b", "b")]).2.2 rfl⟩

/-- Claim C3: the record a captured key event appends carries `char_repr`
equal to the literal token when the event has no printable character
(`event.char` empty, as for Return), and otherwise to the printable
character with every newline replaced by the two-character escape. -/
theorem char_repr_correct (s : SessionState) (now ks ch : String)
    (hrec : s.recording = true) :
    (ch = "" → (on_key_press s now ks ch).events.getLast? =
        some { timestamp := now ++ "Z", keysym := ks, charRepr := "<non-printable>" })
    ∧ (ch ≠ "" → (on_key_press s now ks ch).events.getLast? =
        some { timestamp := now ++ "Z", keysym := ks,
               charRepr := ch.replace "\n" "\\n" }) := by
  constructor <;> intro h <;>
    simp [on_key_press, hrec, appendToDisplay, mkEventRecord, charReprOf, h,
      List.getLast?_concat]

/-- Claim C3 witness: while recording, a Return key event with no printable
character yields `<non-printable>`, and an "a" key event yields "a". -/
theorem char_repr_correct_witness :
    (on_key_press recState "t2" "Return" "").events.getLast? =
        some { timestamp := "t2" ++ "Z", keysym := "Return",
               charRepr := "<non-printable>" }
    ∧ (on_key_press recState "t1" "a" "a").events.getLast? =
        some { timestamp := "t1" ++ "Z", keysym := "a",
               charRepr := "a".replace "\n" "\\n" } :=
  ⟨(char_repr_correct recState "t2" "Return" "" (by decide)).1 rfl,
   (char_repr_correct recState "t1" "a" "a" (by decide)).2 (by decide)⟩

/-- Claim C4: Clear is a prompt-free no-op exactly when both the event log
and the display are already empty; otherwise it shows exactly the
confirmation prompt, and on confirmation empties the event log, clears the
display, and appends the single info line, while on decline the state is
unchanged. -/
theorem clear_events_contract (s : SessionState) (now : String) (confirm : Bool) :
    (s.events = [] ∧ s.display = [] → clear_events s now confirm = (s, []))
    ∧ (¬(s.events = [] ∧ s.display = []) →
        (clear_events s now confirm).2
            = [Eff.askYesNo "Clear" "Clear recorded events and display?"]
        ∧ (confirm = true →
            (clear_events s now confirm).1.events = []
            ∧ (clear_events s now confirm).1.display
                = [infoLine now "Cleared recorded events."])
        ∧ (confirm = false → (clear_events s now confirm).1 = s)) := by
  constructor
  · intro h
    simp [clear_events, h.1, h.2]
  · intro h
    refine ⟨?_, ?_, ?_⟩
    · cases confirm <;> simp [clear_events, h]
    · intro hc
      subst hc
      constructor <;> simp [clear_events, h, appendMessage, appendToDisplay]
    · intro hc
      subst hc
      simp [clear_events, h]

/-- Claim C4 witness: Clear on the fresh state is a silent no-op; on a state
with events, declining changes nothing and confirming empties. -/
theorem clear_events_contract_witness :
    clear_events initialState "t3" true = (initialState, [])
    ∧ (clear_events demoState "t3" false).1 = demoState
    ∧ (clear_events demoState "t3" true).1.events = [] :=
  ⟨(clear_events_contract initialState "t3" true).1 (by decide),
   ((clear_events_contract demoState "t3" false).2 (by decide)).2.2 rfl,
   (((clear_events_contract demoState "t3" true).2 (by decide)).2.1 rfl).1⟩

/-- Claim C6: with an empty event log, save shows only the informational
notice: no file dialog is opened and no file content is produced. -/
theorem save_empty_noop (s : SessionState) (now err old : String)
    (choice : Option String) (ok : Bool) (h : s.events = []) :
    save_log s now choice ok err old =
      { state := s, fileContent := none,
        effs := [Eff.showInfo "Save Log" "No recorded events to save."] } := by
  simp [save_log, h]

/-- Claim C6 witness: saving from the fresh state shows the notice only. -/
theorem save_empty_noop_witness :
    save_log initialState "t4" (some "out.txt") true "" "" =
      { state := initialState, fileContent := none,
        effs := [Eff.showInfo "Save Log" "No recorded events to save."] } :=
  save_empty_noop initialState "t4" "" "" (some "out.txt") true rfl

/-- Claim C7: closing with a non-empty event log asks for confirmation;
declining cancels the close (no destroy effect, state unchanged), while
confirming, or closing with an empty log, destroys the window. -/
theorem close_contract (s : SessionState) (confirm : Bool) :
    (s.events ≠ [] → confirm = false →
        on_close s confirm
          = (s, [Eff.askYesNo "Exit"
              "There are unsaved recorded events. Exit without saving?"]))
    ∧ (s.events ≠ [] → confirm = true →
        on_close s confirm
          = (s, [Eff.askYesNo "Exit"
              "There are unsaved recorded events. Exit without saving?",
              Eff.destroyWindow]))
    ∧ (s.events = [] → on_close s confirm = (s, [Eff.destroyWindow])) := by
  refine ⟨?_, ?_, ?_⟩
  · intro h hc
    subst hc
    simp [on_close, h]
  · intro h hc
    subst hc
    simp [on_close, h]
  · intro h
    simp [on_close, h]

/-- Claim C7 witness: declining with events keeps state and window; an empty
log closes directly. -/
theorem close_contract_witness :
    on_close demoState false
      = (demoState, [Eff.askYesNo "Exit"
          "There are unsaved recorded events. Exit without saving?"])
    ∧ on_close initialState false = (initialState, [Eff.destroyWindow]) :=
  ⟨(close_contract demoState false).1 (by decide) rfl,
   (close_contract initialState false).2.2 rfl⟩

/-- Claim C8: `start()` is idempotent — a second consecutive call is a no-op
on the entire state (flag, buttons, display, event log) — and `stop()` with
recording already off is likewise a no-op. -/
theorem start_idempotent (s : SessionState) (t1 t2 t : String) :
    start_recording (start_recording s t1) t2 = start_recording s t1
    ∧ (s.recording = false → stop_recording s t = s) := by
  constructor
  · by_cases h : s.recording
    · simp [start_recording, h]
    · simp [start_recording, h, appendMessage, appendToDisplay]
  · intro h
    simp [stop_recording, h]

/-- Claim C8 witness: starting twice from the fresh state equals starting
once, and stopping the fresh state is a no-op. -/
theorem start_idempotent_witness :
    start_recording (start_recording initialState "t0") "t9"
        = start_recording initialState "t0"
    ∧ stop_recording initialState "t9" = initialState :=
  ⟨(start_idempotent initialState "t0" "t9" "t9").1,
   (start_idempotent initialState "t0" "t9" "t9").2 rfl⟩

/-- The imperative write loop of `save_log` equals header followed by the
concatenated per-record lines. -/
theorem foldl_recLine (l : List EventRecord) (init : String) :
    l.foldl (fun acc e => acc ++ recLine e) init
      = init ++ concatLines (l.map recLine) := by
  induction l generalizing init with
  | nil => simp [concatLines]
  | cons a l ih =>
      simp only [List.foldl_cons, List.map_cons, concatLines, List.foldr_cons, ih]
      rw [String.append_assoc]

/-- `save_log` never touches the recording flag, the event list, or the
button/status widgets, in any of its branches. -/
theorem save_log_state_frame (s : SessionState) (now : String)
    (choice : Option String) (ok : Bool) (err old : String) :
    (save_log s now choice ok err old).state.events = s.events
    ∧ (save_log s now choice ok err old).state.recording = s.recording
    ∧ (save_log s now choice ok err old).state.startBtnState = s.startBtnState
    ∧ (save_log s now choice ok err old).state.stopBtnState = s.stopBtnState
    ∧ (save_log s now choice ok err old).state.statusText = s.statusText := by
  by_cases he : s.events = []
  · simp [save_log, he]
  · cases choice with
    | none => simp [save_log, he]
    | some p =>
        cases ok <;> simp [save_log, he, appendMessage, appendToDisplay]

/-- Claim C2: a completed save on a non-empty log produces, on the chosen
file, the old content unchanged followed by exactly one block: the header
line, one tab-separated line per event record in log order, and a trailing
blank line. -/
theorem save_block_format (s : SessionState) (now p err old : String)
    (hne : s.events ≠ []) :
    (save_log s now (some p) true err old).fileContent
      = some (old ++ saveHeader now ++ concatLines (s.events.map recLine) ++ "\n")
    ∧ saveHeader now = "# Key event log saved: " ++ now ++ "Z\n"
    ∧ recLine = fun e =>
        e.timestamp ++ "\t" ++ e.keysym ++ "\t" ++ e.charRepr ++ "\n" := by
  refine ⟨?_, rfl, rfl⟩
  simp [save_log, hne, writeBlock, foldl_recLine, String.append_assoc]

/-- Claim C2 witness: a concrete completed save appends exactly the block to
the old content. -/
theorem save_block_format_witness :
    (save_log demoState "T" (some "dir/out.txt") true "" "OLD").fileContent
      = some ("OLD" ++ saveHeader "T"
          ++ concatLines (demoState.events.map recLine) ++ "\n") :=
  (save_block_format demoState "T" "dir/out.txt" "" "OLD" (by decide)).1

/-- Claim C5: in every outcome of save — empty-log notice, cancelled dialog,
successful write, I/O failure — the event log and the recording flag are
unchanged, and an I/O failure shows the modal error dialog carrying the
failure detail. -/
theorem save_frame (s : SessionState) (now err old : String)
    (choice : Option String) (ok : Bool) :
    (save_log s now choice ok err old).state.events = s.events
    ∧ (save_log s now choice ok err old).state.recording = s.recording
    ∧ (s.events ≠ [] → ∀ p, choice = some p → ok = false →
        (save_log s now choice ok err old).effs
          = [Eff.askSaveDialog,
             Eff.showError "Save Log" ("Failed to save file:\n" ++ err)]) := by
  refine ⟨(save_log_state_frame s now choice ok err old).1,
          (save_log_state_frame s now choice ok err old).2.1, ?_⟩
  intro he p hp hok
  subst hp
  subst hok
  simp [save_log, he]

/-- Claim C5 witness: a failing write on a non-empty log leaves the events
intact and shows the error dialog with the exception text. -/
theorem save_frame_witness :
    (save_log demoState "T" (some "out.txt") false "boom" "").state.events
        = demoState.events
    ∧ (save_log demoState "T" (some "out.txt") false "boom" "").effs
        = [Eff.askSaveDialog,
           Eff.showError "Save Log" ("Failed to save file:\n" ++ "boom")] :=
  ⟨(save_frame demoState "T" "boom" "" (some "out.txt") false).1,
   (save_frame demoState "T" "boom" "" (some "out.txt") false).2.2
      (by decide) "out.txt" rfl rfl⟩

/-- Claim C9: across every operation the event-log length is non-decreasing
except at a user-confirmed Clear, which empties it; the log changes only by
appending the one record of a key event captured while recording (info
messages never enter it); and the file content a save produces depends only
on the event log, never on the display messages. -/
theorem event_log_invariants (s t : SessionState) (op : Op)
    (hev : s.events = t.events) :
    (isConfirmedClear op = false →
        s.events.length ≤ (applyOp op s).events.length)
    ∧ (isConfirmedClear op = true → (applyOp op s).events = [])
    ∧ ((applyOp op s).events = s.events
        ∨ (isConfirmedClear op = true ∧ (applyOp op s).events = [])
        ∨ ∃ now ks ch, op = Op.key now ks ch ∧ s.recording = true
            ∧ (applyOp op s).events = s.events ++ [mkEventRecord now ks ch])
    ∧ (∀ now choice ok err old,
        (save_log s now choice ok err old).fileContent
          = (save_log t now choice ok err old).fileContent) := by
  have hprov : (applyOp op s).events = s.events
      ∨ (isConfirmedClear op = true ∧ (applyOp op s).events = [])
      ∨ ∃ now ks ch, op = Op.key now ks ch ∧ s.recording = true
          ∧ (applyOp op s).events = s.events ++ [mkEventRecord now ks ch] := by
    cases op with
    | start now =>
        left
        by_cases h : s.recording <;>
          simp [applyOp, start_recording, h, appendMessage, appendToDisplay]
    | stop now =>
        left
        by_cases h : s.recording <;>
          simp [applyOp, stop_recording, h, appendMessage, appendToDisplay]
    | key now ks ch =>
        by_cases h : s.recording
        · right; right
          exact ⟨now, ks, ch, rfl, h,
            by simp [applyOp, on_key_press, h, appendToDisplay]⟩
        · left
          simp [applyOp, on_key_press, h]
    | save now choice ok err old =>
        left
        exact (save_log_state_frame s now choice ok err old).1
    | clear now confirm =>
        cases confirm with
        | false =>
            left
            by_cases h : s.events = [] ∧ s.display = [] <;>
              simp [applyOp, clear_events, h]
        | true =>
            right; left
            refine ⟨rfl, ?_⟩
            by_cases h : s.events = [] ∧ s.display = []
            · simp [applyOp, clear_events, h.1, h.2]
            · simp [applyOp, clear_events, h, appendMessage, appendToDisplay]
    | close confirm =>
        left
        by_cases h : s.events = [] <;> cases confirm <;>
          simp [applyOp, on_close, h]
    | openFile choice ok content err =>
        left
        cases choice with
        | none => simp [applyOp, open_log_file]
        | some p => cases ok <;> simp [applyOp, open_log_file]
  have hclear : isConfirmedClear op = true → (applyOp op s).events = [] := by
    intro hc
    cases op with
    | start now => simp [isConfirmedClear] at hc
    | stop now => simp [isConfirmedClear] at hc
    | key now ks ch => simp [isConfirmedClear] at hc
    | save now choice ok err old => simp [isConfirmedClear] at hc
    | close confirm => simp [isConfirmedClear] at hc
    | openFile choice ok content err => simp [isConfirmedClear] at hc
    | clear now confirm =>
        cases confirm with
        | false => simp [isConfirmedClear] at hc
        | true =>
            by_cases h : s.events = [] ∧ s.display = []
            · simp [applyOp, clear_events, h.1, h.2]
            · simp [applyOp, clear_events, h, appendMessage, appendToDisplay]
  have hmono : isConfirmedClear op = false →
      s.events.length ≤ (applyOp op s).events.length := by
    intro hnc
    rcases hprov with h | ⟨hc, -⟩ | ⟨now, ks, ch, -, -, h⟩
    · rw [h]
    · rw [hnc] at hc
      exact absurd hc (by simp)
    · rw [h, List.length_append]
      omega
  have hfile : ∀ now choice ok err old,
      (save_log s now choice ok err old).fileContent
        = (save_log t now choice ok err old).fileContent := by
    intro now choice ok err old
    by_cases he : t.events = []
    · simp [save_log, hev, he]
    · cases choice with
      | none => simp [save_log, hev, he]
      | some p => cases ok <;> simp [save_log, hev, he]
  exact ⟨hmono, hclear, hprov, hfile⟩

/-- Claim C9 witness: a captured key event grows the log; a confirmed clear
empties it; saves from states with equal logs write equal file content. -/
theorem event_log_invariants_witness :
    demoState.events.length
        ≤ (applyOp (Op.key "t5" "x" "x") demoState).events.length
    ∧ (applyOp (Op.clear "t6" true) demoState).events = []
    ∧ (∀ now choice ok err old,
        (save_log demoState now choice ok err old).fileContent
          = (save_log demoState now choice ok err old).fileContent) :=
  ⟨(event_log_invariants demoState demoState (Op.key "t5" "x" "x") rfl).1
      (by decide),
   (event_log_invariants demoState demoState (Op.clear "t6" true) rfl).2.1
      (by decide),
   (event_log_invariants demoState demoState (Op.clear "t6" true) rfl).2.2.2⟩

/-- The UI coherence property: the recording flag, the Start/Stop button
states, and the status text always agree. -/
def uiInv (s : SessionState) : Prop :=
  (s.recording = true →
      s.startBtnState = "disabled" ∧ s.stopBtnState = "normal"
        ∧ s.statusText = "Recording: Yes")
  ∧ (s.recording = false →
      s.startBtnState = "normal" ∧ s.stopBtnState = "disabled"
        ∧ s.statusText = "Recording: No")

/-- Claim C10: initially, and after every operation, `recording` is true
exactly when Start is disabled, Stop is enabled and the status reads
"Recording: Yes", and false exactly when Start is enabled, Stop is disabled
and the status reads "Recording: No". -/
theorem ui_invariant :
    uiInv initialState
    ∧ ∀ (s : SessionState) (op : Op), uiInv s → uiInv (applyOp op s) := by
  constructor
  · simp [uiInv, initialState]
  · intro s op h
    cases op with
    | start now =>
        by_cases hr : s.recording
        · simpa [applyOp, start_recording, hr] using h
        · simp [applyOp, start_recording, hr, appendMessage, appendToDisplay,
            uiInv]
    | stop now =>
        by_cases hr : s.recording
        · simp [applyOp, stop_recording, hr, appendMessage, appendToDisplay,
            uiInv]
        · simpa [applyOp, stop_recording, hr] using h
    | key now ks ch =>
        by_cases hr : s.recording
        · simpa [applyOp, on_key_press, hr, appendToDisplay, uiInv] using h
        · simpa [applyOp, on_key_press, hr] using h
    | save now choice ok err old =>
        obtain ⟨-, hrec, hstart, hstop, htext⟩ :=
          save_log_state_frame s now choice ok err old
        simp only [applyOp]
        constructor
        · intro hx
          rw [hrec] at hx
          exact ⟨hstart.trans (h.1 hx).1, hstop.trans (h.1 hx).2.1,
            htext.trans (h.1 hx).2.2⟩
        · intro hx
          rw [hrec] at hx
          exact ⟨hstart.trans (h.2 hx).1, hstop.trans (h.2 hx).2.1,
            htext.trans (h.2 hx).2.2⟩
    | clear now confirm =>
        by_cases hb : s.events = [] ∧ s.display = []
        · simpa [applyOp, clear_events, hb.1, hb.2] using h
        · cases confirm with
          | false => simpa [applyOp, clear_events, hb] using h
          | true =>
              simpa [applyOp, clear_events, hb, appendMessage,
                appendToDisplay, uiInv] using h
    | close confirm =>
        by_cases hb : s.events = [] <;> cases confirm <;>
          simpa [applyOp, on_close, hb] using h
    | openFile choice ok content err =>
        cases choice with
        | none => simpa [applyOp, open_log_file] using h
        | some p => cases ok <;> simpa [applyOp, open_log_file] using h

/-- Claim C10 witness: the invariant holds initially and is carried through
a concrete Start operation. -/
theorem ui_invariant_witness :
    uiInv (applyOp (Op.start "t0") initialState) :=
  ui_invariant.2 initialState (Op.start "t0") ui_invariant.1
